import Mathlib

/-!
Verification of the satellite-image analysis pipeline
(`object_detector.py`, `quality_assessment.py`, `satellite_analyzer.py`).

The numeric code is embedded over `ℚ`. The OpenCV/NumPy primitives that the
repository merely calls (grayscale statistics, colour-space conversion,
contour extraction) enter the embedding as explicit inputs: a detection pass
receives the list of contour areas its mask produced, and the quality
assessor receives the four grayscale statistics it normalises. Everything
the repository itself computes around those primitives is translated
faithfully.
-/

namespace SatelliteAI

/-- One detected object as appended by the detection passes of
`object_detector.py`: its land-cover `type`, a confidence derived from the
contour area, and the raw pixel area. -/
structure DetectedObject where
  type : String
  confidence : ℚ
  area : ℚ
deriving DecidableEq

/-- Result record of `SatelliteObjectDetector.detect_objects`:
`{'objects': ..., 'confidence': ..., 'total_objects': len(objects)}`. -/
structure DetectionResult where
  objects : List DetectedObject
  confidence : ℚ
  total_objects : ℕ
deriving DecidableEq

/-- `SatelliteObjectDetector.detect_water`, given the areas of the external
contours found in the blue mask: every contour with area > 100 emits a
`water_body` object with confidence `min (area / 10000) 1`. -/
def detect_water (areas : List ℚ) : List DetectedObject :=
  (areas.filter (fun a => a > 100)).map
    (fun a => ⟨"water_body", min (a / 10000) 1, a⟩)

/-- `SatelliteObjectDetector.detect_vegetation`, given the areas of the
external contours found in the green mask: every contour with area > 100
emits a `vegetation` object with confidence `min (area / 8000) 1`. -/
def detect_vegetation (areas : List ℚ) : List DetectedObject :=
  (areas.filter (fun a => a > 100)).map
    (fun a => ⟨"vegetation", min (a / 8000) 1, a⟩)

/-- `SatelliteObjectDetector.detect_urban_areas`, given the areas of the
external contours of the closed edge map: every contour with area > 200
emits an `urban_area` object with confidence `min (area / 15000) 1`. -/
def detect_urban_areas (areas : List ℚ) : List DetectedObject :=
  (areas.filter (fun a => a > 200)).map
    (fun a => ⟨"urban_area", min (a / 15000) 1, a⟩)

/-- `SatelliteObjectDetector.calculate_detection_confidence`: 0.0 on an
empty list, otherwise the mean of the confidences clamped to at most 1.0. -/
def calculate_detection_confidence (objects : List DetectedObject) : ℚ :=
  if objects.isEmpty then 0
  else min ((objects.map (fun o => o.confidence)).sum / objects.length) 1

/-- `SatelliteObjectDetector.detect_objects`: run the three passes, extend
the object list in pass order, and report the aggregate confidence and the
object count. The three area lists stand for the contour areas the three
masks produced on the image, in contour-discovery order. -/
def detect_objects (waterAreas vegAreas urbanAreas : List ℚ) : DetectionResult :=
  let objs := detect_water waterAreas ++ detect_vegetation vegAreas
      ++ detect_urban_areas urbanAreas
  ⟨objs, calculate_detection_confidence objs, objs.length⟩

/-- Report record of `ImageQualityAssessor.assess_quality`. -/
structure QualityReport where
  sharpness : ℚ
  contrast : ℚ
  noise_level : ℚ
  brightness : ℚ
  overall_quality : ℚ
  quality_level : String
deriving DecidableEq

/-- The four grayscale statistics that `quality_assessment.py` obtains from
OpenCV/NumPy primitives (Laplacian variance, intensity standard deviation,
median absolute deviation, mean intensity) before normalising them. -/
structure GrayStats where
  laplacian_variance : ℚ
  intensity_std : ℚ
  intensity_mad : ℚ
  intensity_mean : ℚ
deriving DecidableEq

/-- `ImageQualityAssessor.calculate_sharpness`: Laplacian variance / 1000. -/
def calculate_sharpness (s : GrayStats) : ℚ :=
  s.laplacian_variance / 1000

/-- `ImageQualityAssessor.calculate_contrast`: intensity std / 128. -/
def calculate_contrast (s : GrayStats) : ℚ :=
  s.intensity_std / 128

/-- `ImageQualityAssessor.calculate_noise_level`: `min (mad / 64) 1`. -/
def calculate_noise_level (s : GrayStats) : ℚ :=
  min (s.intensity_mad / 64) 1

/-- `ImageQualityAssessor.calculate_brightness`:
`1 - |mean / 255 - 0.5| * 2`. -/
def calculate_brightness (s : GrayStats) : ℚ :=
  1 - |s.intensity_mean / 255 - 0.5| * 2

/-- `ImageQualityAssessor.get_quality_level`: ordered threshold check,
first match wins. -/
def get_quality_level (score : ℚ) : String :=
  if score ≥ 0.8 then "Excellent"
  else if score ≥ 0.6 then "Good"
  else if score ≥ 0.4 then "Fair"
  else "Poor"

/-- `ImageQualityAssessor.default_quality_report`: the fixed report used
when no image is available. -/
def default_quality_report : QualityReport :=
  ⟨0.5, 0.5, 0.3, 0.7, 0.5, "Estimated"⟩

/-- `ImageQualityAssessor.assess_quality`: the default report on a null
image, otherwise the four normalised metrics and their weighted sum. -/
def assess_quality (image : Option GrayStats) : QualityReport :=
  match image with
  | none => default_quality_report
  | some s =>
    let sharpness := calculate_sharpness s
    let contrast := calculate_contrast s
    let noise_level := calculate_noise_level s
    let brightness := calculate_brightness s
    let overall_quality :=
      sharpness * 0.3 + contrast * 0.25 + (1 - noise_level) * 0.25
        + brightness * 0.2
    ⟨sharpness, contrast, noise_level, brightness, overall_quality,
      get_quality_level overall_quality⟩

/-- An in-memory 3-channel raster: `pixel y x` holds the triple
(channel 0, channel 1, channel 2) at row `y`, column `x`. -/
structure Image where
  height : ℕ
  width : ℕ
  pixel : ℕ → ℕ → ℕ × ℕ × ℕ

/-- Pixel content of `SatelliteAnalyzer.create_sample_image`: the drawing
calls are applied to a 512×512 zero raster in source order (two water
rectangles, two vegetation rectangles, two urban rectangles, then the
horizontal and the vertical road line), a later call overwriting an earlier
one, so the shapes are checked here in reverse draw order. A filled
`cv2.rectangle` covers both corners inclusively; a thickness-3 axis-aligned
`cv2.line` covers one pixel on either side of its centre row or column. -/
def sample_pixel (y x : ℕ) : ℕ × ℕ × ℕ :=
  if 255 ≤ x ∧ x ≤ 257 then (200, 200, 200)
  else if 255 ≤ y ∧ y ≤ 257 then (200, 200, 200)
  else if 400 ≤ x ∧ x ≤ 480 ∧ 400 ≤ y ∧ y ≤ 480 then (100, 100, 100)
  else if 50 ≤ x ∧ x ≤ 120 ∧ 50 ≤ y ∧ y ≤ 120 then (120, 120, 120)
  else if 350 ≤ x ∧ x ≤ 450 ∧ 150 ≤ y ∧ y ≤ 250 then (50, 160, 50)
  else if 150 ≤ x ∧ x ≤ 250 ∧ 350 ≤ y ∧ y ≤ 450 then (40, 180, 40)
  else if 300 ≤ x ∧ x ≤ 400 ∧ 300 ≤ y ∧ y ≤ 400 then (80, 140, 190)
  else if 100 ≤ x ∧ x ≤ 200 ∧ 100 ≤ y ∧ y ≤ 200 then (70, 130, 180)
  else (0, 0, 0)

/-- `SatelliteAnalyzer.create_sample_image`: the fixed 512×512 placeholder
raster. A constant of the development — no randomness enters it. -/
def create_sample_image : Image :=
  ⟨512, 512, sample_pixel⟩

/-- `cv2.cvtColor` with `COLOR_BGR2RGB`: swaps channel 0 and channel 2 of
every pixel and keeps the shape. -/
def cvtColor_BGR2RGB (img : Image) : Image :=
  ⟨img.height, img.width, fun y x =>
    ((img.pixel y x).2.2, (img.pixel y x).2.1, (img.pixel y x).1)⟩

/-- Outcome of the decoding attempt inside `SatelliteAnalyzer.load_image`:
`cv2.imread` decodes an image, returns None (missing or corrupt file), or
the try block raises an exception. -/
inductive DecodeResult where
  | decoded (img : Image)
  | noImage
  | raised (msg : String)

/-- The try block of `SatelliteAnalyzer.load_image`: decode, substitute the
sample image when the decoder returned None, then convert BGR→RGB; an
exception anywhere in the block escapes as `Except.error`. -/
def load_image_try (r : DecodeResult) : Except String Image :=
  match r with
  | .decoded img => .ok (cvtColor_BGR2RGB img)
  | .noImage => .ok (cvtColor_BGR2RGB create_sample_image)
  | .raised msg => .error msg

/-- `SatelliteAnalyzer.load_image`: the try block's image, or, when the
block raised, the sample image returned directly from the except handler
(which skips the BGR→RGB conversion). -/
def load_image (r : DecodeResult) : Image :=
  match load_image_try r with
  | .ok img => img
  | .error _ => create_sample_image

/-- `SatelliteAnalyzer.calculate_overall_score`:
`min (overall_quality * 0.6 + confidence * 0.4) 1`. -/
def calculate_overall_score (quality : QualityReport)
    (detection : DetectionResult) : ℚ :=
  min (quality.overall_quality * 0.6 + detection.confidence * 0.4) 1

/-- The `image_info` sub-record of an analysis report. -/
structure ImageInfo where
  dimensions : ℕ × ℕ × ℕ
  file_path : String
deriving DecidableEq

/-- The report assembled by `SatelliteAnalyzer.analyze_image`. -/
structure AnalysisReport where
  image_info : ImageInfo
  quality_assessment : QualityReport
  object_detection : DetectionResult
  overall_score : ℚ
deriving DecidableEq

/-- Rounding to the nearest integer, ties to the even integer — the rule the
`:.2f` format specifier applies to the scaled value. -/
def roundHalfEven (q : ℚ) : ℤ :=
  let f := Int.floor q
  if q - f < 1/2 then f
  else if q - f > 1/2 then f + 1
  else if 2 ∣ f then f else f + 1

/-- Fixed-point rendering with two digits after the point, as the `:.2f`
format specifier produces for the values the reports format. -/
def format_2f (q : ℚ) : String :=
  let n := roundHalfEven (q * 100)
  let m := n.natAbs
  (if n < 0 then "-" else "")
    ++ toString (m / 100) ++ "."
    ++ (if m % 100 < 10 then "0" else "") ++ toString (m % 100)

/-- Python's rendering of the `image.shape` tuple. -/
def dims_to_string (d : ℕ × ℕ × ℕ) : String :=
  "(" ++ toString d.1 ++ ", " ++ toString d.2.1 ++ ", " ++ toString d.2.2 ++ ")"

/-- The 50-character separator line `"=" * 50`. -/
def eq_separator : String :=
  String.mk (List.replicate 50 '=')

/-- The list `report` of lines that `SatelliteAnalyzer.generate_report`
appends (some entries begin with the `\n` the source embeds in them). -/
def report_lines (r : AnalysisReport) : List String :=
  [eq_separator,
   "🛰️ SATELLITE IMAGE ANALYSIS REPORT",
   eq_separator,
   "📊 Image Dimensions: " ++ dims_to_string r.image_info.dimensions,
   "📁 File: " ++ r.image_info.file_path,
   "\n🎯 QUALITY ASSESSMENT:",
   "   - Overall Quality: "
     ++ format_2f r.quality_assessment.overall_quality ++ "/1.0",
   "   - Sharpness: " ++ format_2f r.quality_assessment.sharpness,
   "   - Contrast: " ++ format_2f r.quality_assessment.contrast,
   "   - Noise Level: " ++ format_2f r.quality_assessment.noise_level,
   "\n🔍 OBJECT DETECTION:",
   "   - Objects Found: " ++ toString r.object_detection.objects.length,
   "   - Detection Confidence: " ++ format_2f r.object_detection.confidence]
  ++ r.object_detection.objects.map (fun o =>
      "     • " ++ o.type ++ " (Confidence: " ++ format_2f o.confidence ++ ")")
  ++ ["\n⭐ OVERALL USEFULNESS SCORE: " ++ format_2f r.overall_score ++ "/1.0",
      eq_separator]

/-- `SatelliteAnalyzer.generate_report`: the fixed sentinel text on an
absent report, otherwise the lines joined with newlines. -/
def generate_report (report : Option AnalysisReport) : String :=
  match report with
  | none => "No analysis data available"
  | some r => String.intercalate "\n" (report_lines r)

/-- Whether `pat` occurs as a contiguous sublist of the second list. -/
def has_sublist (pat : List Char) : List Char → Bool
  | [] => pat.isEmpty
  | c :: cs => pat.isPrefixOf (c :: cs) || has_sublist pat cs

/-- Whether `pat` occurs as a substring of `s`. -/
def str_contains_sub (s pat : String) : Bool :=
  has_sublist pat.data s.data

/-- A concrete analysis report, with pairwise distinct quality sub-scores,
used to exhibit what `generate_report` renders and omits. -/
def sample_report : AnalysisReport :=
  ⟨⟨(512, 512, 3), "sample_satellite.jpg"⟩,
   ⟨11/100, 22/100, 33/100, 77/100, 44/100, "Fair"⟩,
   ⟨[⟨"water_body", 1, 10200⟩], 1, 1⟩,
   66/100⟩

/-! ## Helper lemmas -/

/-- Each object a detection pass emits has a positive confidence that is at
most 1: the pass keeps only contours whose area exceeds a nonnegative
minimum and clamps `area / divisor` at 1. -/
theorem detect_pass_mem_bounds (t : String) (m c : ℚ) (hm : 0 ≤ m) (hc : 0 < c)
    (areas : List ℚ) (o : DetectedObject)
    (ho : o ∈ (areas.filter (fun a => a > m)).map
      (fun a => (⟨t, min (a / c) 1, a⟩ : DetectedObject))) :
    0 < o.confidence ∧ o.confidence ≤ 1 := by
  simp only [List.mem_map, List.mem_filter, decide_eq_true_eq] at ho
  obtain ⟨a, ⟨_, hma⟩, rfl⟩ := ho
  exact ⟨lt_min (div_pos (lt_of_le_of_lt hm hma) hc) one_pos, min_le_right _ _⟩

/-- Every object in the concatenated detection list has a positive
confidence that is at most 1. -/
theorem detect_objects_mem_bounds (w v u : List ℚ) (o : DetectedObject)
    (ho : o ∈ (detect_objects w v u).objects) :
    0 < o.confidence ∧ o.confidence ≤ 1 := by
  simp only [detect_objects, List.mem_append] at ho
  rcases ho with (h | h) | h
  · exact detect_pass_mem_bounds "water_body" 100 10000 (by norm_num) (by norm_num) w o h
  · exact detect_pass_mem_bounds "vegetation" 100 8000 (by norm_num) (by norm_num) v o h
  · exact detect_pass_mem_bounds "urban_area" 200 15000 (by norm_num) (by norm_num) u o h

/-- On a list of objects with positive confidences, the aggregate detection
confidence is in [0, 1] and vanishes exactly on the empty list. -/
theorem detection_confidence_aux (objs : List DetectedObject)
    (hpos : ∀ o ∈ objs, 0 < o.confidence) :
    0 ≤ calculate_detection_confidence objs
      ∧ calculate_detection_confidence objs ≤ 1
      ∧ (calculate_detection_confidence objs = 0 ↔ objs = []) := by
  unfold calculate_detection_confidence
  rcases eq_or_ne objs [] with rfl | hne
  · simp
  · rw [if_neg (by simpa using hne)]
    have hlen : (0 : ℚ) < objs.length := by
      exact_mod_cast List.length_pos.mpr hne
    have hsum : 0 < (objs.map (fun o => o.confidence)).sum := by
      apply List.sum_pos
      · intro x hx
        obtain ⟨o, ho, rfl⟩ := List.mem_map.mp hx
        exact hpos o ho
      · simp [hne]
    have hmin : 0 < min ((objs.map (fun o => o.confidence)).sum / objs.length) 1 :=
      lt_min (div_pos hsum hlen) one_pos
    exact ⟨hmin.le, min_le_right _ _,
      ⟨fun h => absurd h hmin.ne', fun h => absurd h hne⟩⟩

/-- Reversing the channel triple of a pixel leaves it unchanged exactly when
its first and third channels agree. -/
theorem triple_rev_eq_iff (p : ℕ × ℕ × ℕ) :
    (p.2.2, p.2.1, p.1) = p ↔ p.1 = p.2.2 := by
  obtain ⟨a, b, c⟩ := p
  simp only [Prod.mk.injEq]
  constructor
  · intro h
    exact h.2.2
  · intro h
    exact ⟨h.symm, trivial, h⟩

/-! ## The claims -/

/-- Claim C2: for every image (every triple of mask contour-area lists), the
aggregate confidence returned by `detect_objects` lies in [0, 1], vanishes
exactly when the returned object list is empty, and is the arithmetic mean
of the individual confidences clamped to at most 1 (0 on no objects). -/
theorem detection_confidence_bounds (w v u : List ℚ) :
    0 ≤ (detect_objects w v u).confidence
      ∧ (detect_objects w v u).confidence ≤ 1
      ∧ ((detect_objects w v u).confidence = 0
          ↔ (detect_objects w v u).objects = [])
      ∧ (detect_objects w v u).confidence
          = (if (detect_objects w v u).objects.isEmpty then 0
             else min (((detect_objects w v u).objects.map
                   (fun o => o.confidence)).sum
                 / ((detect_objects w v u).objects.length : ℚ)) 1) := by
  have haux := detection_confidence_aux ((detect_objects w v u).objects)
    (fun o ho => (detect_objects_mem_bounds w v u o ho).1)
  exact ⟨haux.1, haux.2.1, haux.2.2, rfl⟩

/-- Claim C3: a detection pass emits an object exactly for the contours
whose area exceeds the pass's minimum (100 for water and vegetation, 200
for urban), with confidence `min (area / threshold) 1` for the pass's
threshold (10000 water, 8000 vegetation, 15000 urban), and every emitted
object's confidence lies in [0, 1]. -/
theorem detection_pass_emission (areas : List ℚ) (o : DetectedObject) :
    (o ∈ detect_water areas
        ↔ ∃ a, a ∈ areas ∧ a > 100 ∧ o = ⟨"water_body", min (a / 10000) 1, a⟩)
      ∧ (o ∈ detect_vegetation areas
        ↔ ∃ a, a ∈ areas ∧ a > 100 ∧ o = ⟨"vegetation", min (a / 8000) 1, a⟩)
      ∧ (o ∈ detect_urban_areas areas
        ↔ ∃ a, a ∈ areas ∧ a > 200 ∧ o = ⟨"urban_area", min (a / 15000) 1, a⟩)
      ∧ (o ∈ detect_water areas → 0 ≤ o.confidence ∧ o.confidence ≤ 1)
      ∧ (o ∈ detect_vegetation areas → 0 ≤ o.confidence ∧ o.confidence ≤ 1)
      ∧ (o ∈ detect_urban_areas areas → 0 ≤ o.confidence ∧ o.confidence ≤ 1) := by
  refine ⟨?_, ?_, ?_, ?_, ?_, ?_⟩
  · simp [detect_water, List.mem_filter, eq_comm, and_assoc]
  · simp [detect_vegetation, List.mem_filter, eq_comm, and_assoc]
  · simp [detect_urban_areas, List.mem_filter, eq_comm, and_assoc]
  · intro ho
    have h := detect_pass_mem_bounds "water_body" 100 10000
      (by norm_num) (by norm_num) areas o ho
    exact ⟨h.1.le, h.2⟩
  · intro ho
    have h := detect_pass_mem_bounds "vegetation" 100 8000
      (by norm_num) (by norm_num) areas o ho
    exact ⟨h.1.le, h.2⟩
  · intro ho
    have h := detect_pass_mem_bounds "urban_area" 200 15000
      (by norm_num) (by norm_num) areas o ho
    exact ⟨h.1.le, h.2⟩

/-- Claim C9: the object list returned by `detect_objects` is the
concatenation of the three passes' lists in pass order (water, vegetation,
urban), each pass preserves the contour-discovery order of the areas it
keeps, and `total_objects` is the length of the returned list. -/
theorem detect_objects_concatenation (w v u : List ℚ) :
    (detect_objects w v u).objects
        = detect_water w ++ detect_vegetation v ++ detect_urban_areas u
      ∧ (detect_objects w v u).total_objects
        = (detect_objects w v u).objects.length
      ∧ (detect_water w).map (fun o => o.area) = w.filter (fun a => a > 100)
      ∧ (detect_vegetation v).map (fun o => o.area) = v.filter (fun a => a > 100)
      ∧ (detect_urban_areas u).map (fun o => o.area) = u.filter (fun a => a > 200) := by
  refine ⟨rfl, rfl, ?_, ?_, ?_⟩ <;>
    simp [detect_water, detect_vegetation, detect_urban_areas, List.map_map,
      Function.comp_def]

/-- Claim C1: the analyzer's overall score is the quality score weighted
0.6 plus the detection confidence weighted 0.4, clamped above at 1.0; the
lower bound is not clamped, so a negative overall quality yields a negative
score (exhibited at overall quality −1); with the fixed default quality
report (overall quality 0.5) and detection confidence c the score is
`min (0.5·0.6 + c·0.4) 1`. -/
theorem overall_score_formula (q : QualityReport) (d : DetectionResult) :
    calculate_overall_score q d
        = min (q.overall_quality * 0.6 + d.confidence * 0.4) 1
      ∧ calculate_overall_score ⟨0, 0, 0, 0, -1, "Poor"⟩ ⟨[], 0, 0⟩ < 0
      ∧ calculate_overall_score default_quality_report d
        = min (0.5 * 0.6 + d.confidence * 0.4) 1 := by
  refine ⟨rfl, ?_, rfl⟩
  norm_num [calculate_overall_score, min_def]

/-- Claim C4: loading is total — once the decode outcome is fixed the
loader returns an image on every branch, the decoder returning no image or
the try block raising both fall back to the fixed placeholder (the first
through the colour conversion), and the placeholder is the constant 512×512
raster. -/
theorem load_image_never_fails (r : DecodeResult) (msg : String) :
    (∃ img, load_image r = img)
      ∧ load_image DecodeResult.noImage = cvtColor_BGR2RGB create_sample_image
      ∧ load_image (DecodeResult.raised msg) = create_sample_image
      ∧ (∀ img, load_image (DecodeResult.decoded img) = cvtColor_BGR2RGB img)
      ∧ create_sample_image.height = 512 ∧ create_sample_image.width = 512
      ∧ create_sample_image.pixel = sample_pixel := by
  exact ⟨⟨load_image r, rfl⟩, rfl, rfl, fun _ => rfl, rfl, rfl, rfl⟩

/-- Claim C5: on an absent image the quality assessor returns exactly the
fixed default report — sharpness 0.5, contrast 0.5, noise level 0.3,
brightness 0.7, overall quality 0.5, quality level "Estimated". -/
theorem assess_quality_null_default :
    assess_quality none = ⟨0.5, 0.5, 0.3, 0.7, 0.5, "Estimated"⟩
      ∧ assess_quality none = default_quality_report := by
  exact ⟨rfl, rfl⟩

/-- Claim C6: the quality level is the ordered threshold check — Excellent
from 0.8, Good from 0.6, Fair from 0.4, else Poor — with the stated
boundary values. -/
theorem quality_level_thresholds (s : ℚ) :
    get_quality_level s
        = (if s ≥ 0.8 then "Excellent"
           else if s ≥ 0.6 then "Good"
           else if s ≥ 0.4 then "Fair"
           else "Poor")
      ∧ get_quality_level 0.8 = "Excellent"
      ∧ get_quality_level 0.7999 = "Good"
      ∧ get_quality_level 0.6 = "Good"
      ∧ get_quality_level 0.4 = "Fair"
      ∧ get_quality_level 0.39999 = "Poor" := by
  refine ⟨rfl, ?_, ?_, ?_, ?_, ?_⟩ <;> norm_num [get_quality_level]

/-- Evaluation of the tie-free rounding at an exact integer. -/
theorem roundHalfEven_intCast (n : ℤ) : roundHalfEven ((n : ℚ)) = n := by
  norm_num [roundHalfEven]

/-- Claim C7 (amended): for every analysis report, the rendered text is the
newline-join of a deterministic line list that contains the image
dimensions, the file path, the overall quality and the sharpness, contrast
and noise-level sub-scores (brightness is not rendered), the object count
as a plain integer, the detection confidence, one line per detected object
with its type and confidence, and the overall score, the real-valued
entries formatted to 2 decimal places. -/
theorem generate_report_renders (r : AnalysisReport) :
    generate_report (some r) = String.intercalate "\n" (report_lines r)
      ∧ ("📊 Image Dimensions: " ++ dims_to_string r.image_info.dimensions)
          ∈ report_lines r
      ∧ ("📁 File: " ++ r.image_info.file_path) ∈ report_lines r
      ∧ ("   - Overall Quality: "
            ++ format_2f r.quality_assessment.overall_quality ++ "/1.0")
          ∈ report_lines r
      ∧ ("   - Sharpness: " ++ format_2f r.quality_assessment.sharpness)
          ∈ report_lines r
      ∧ ("   - Contrast: " ++ format_2f r.quality_assessment.contrast)
          ∈ report_lines r
      ∧ ("   - Noise Level: " ++ format_2f r.quality_assessment.noise_level)
          ∈ report_lines r
      ∧ ("   - Objects Found: " ++ toString r.object_detection.objects.length)
          ∈ report_lines r
      ∧ ("   - Detection Confidence: "
            ++ format_2f r.object_detection.confidence) ∈ report_lines r
      ∧ (∀ o ∈ r.object_detection.objects,
          ("     • " ++ o.type ++ " (Confidence: " ++ format_2f o.confidence ++ ")")
            ∈ report_lines r)
      ∧ ("\n⭐ OVERALL USEFULNESS SCORE: " ++ format_2f r.overall_score ++ "/1.0")
          ∈ report_lines r := by
  refine ⟨rfl, ?_, ?_, ?_, ?_, ?_, ?_, ?_, ?_, ?_, ?_⟩
  · simp [report_lines]
  · simp [report_lines]
  · simp [report_lines]
  · simp [report_lines]
  · simp [report_lines]
  · simp [report_lines]
  · simp [report_lines]
  · simp [report_lines]
  · intro o ho
    unfold report_lines
    refine List.mem_append.mpr (Or.inl (List.mem_append.mpr (Or.inr ?_)))
    exact List.mem_map_of_mem _ ho
  · simp [report_lines]

set_option maxRecDepth 40000 in
/-- Claim C7, counterexample: on a concrete report whose brightness is 0.77
and whose other sub-scores are pairwise distinct, the rendered text
mentions neither the word Brightness nor the value 0.77 anywhere, while
it does mention Sharpness — so the report does not list all four quality
sub-scores. -/
theorem generate_report_omits_brightness :
    str_contains_sub (generate_report (some sample_report)) "Brightness" = false
      ∧ str_contains_sub (generate_report (some sample_report)) "0.77" = false
      ∧ str_contains_sub (generate_report (some sample_report)) "Sharpness" = true := by
  have h11 : roundHalfEven ((11:ℚ)/100 * 100) = 11 := by
    rw [show ((11:ℚ)/100 * 100) = ((11:ℤ):ℚ) by norm_num, roundHalfEven_intCast]
  have h22 : roundHalfEven ((22:ℚ)/100 * 100) = 22 := by
    rw [show ((22:ℚ)/100 * 100) = ((22:ℤ):ℚ) by norm_num, roundHalfEven_intCast]
  have h33 : roundHalfEven ((33:ℚ)/100 * 100) = 33 := by
    rw [show ((33:ℚ)/100 * 100) = ((33:ℤ):ℚ) by norm_num, roundHalfEven_intCast]
  have h44 : roundHalfEven ((44:ℚ)/100 * 100) = 44 := by
    rw [show ((44:ℚ)/100 * 100) = ((44:ℤ):ℚ) by norm_num, roundHalfEven_intCast]
  have h66 : roundHalfEven ((66:ℚ)/100 * 100) = 66 := by
    rw [show ((66:ℚ)/100 * 100) = ((66:ℤ):ℚ) by norm_num, roundHalfEven_intCast]
  have h100 : roundHalfEven ((1:ℚ) * 100) = 100 := by
    rw [show ((1:ℚ) * 100) = ((100:ℤ):ℚ) by norm_num, roundHalfEven_intCast]
  refine ⟨?_, ?_, ?_⟩ <;>
    · simp only [generate_report, report_lines, sample_report, format_2f,
        dims_to_string, eq_separator, List.map_cons, List.map_nil,
        h11, h22, h33, h44, h66, h100]
      decide

/-- Claim C10 (amended): the two decode-failure paths of the loader both
yield the placeholder content, but the path where the decoder returns no
image applies the BGR→RGB channel swap that the exception path skips: the
first image is the channel reversal of the second, and their pixels agree
exactly where the placeholder's first and third channels coincide. -/
theorem load_fallback_channel_swap (msg : String) (y x : ℕ) :
    load_image DecodeResult.noImage
        = cvtColor_BGR2RGB (load_image (DecodeResult.raised msg))
      ∧ ((load_image DecodeResult.noImage).pixel y x
            = (load_image (DecodeResult.raised msg)).pixel y x
          ↔ (sample_pixel y x).1 = (sample_pixel y x).2.2) := by
  exact ⟨rfl, triple_rev_eq_iff (sample_pixel y x)⟩

/-- Claim C10, counterexample: at pixel (150, 150) — inside the first water
rectangle, colour (70, 130, 180) — the image returned when the decoder
yields no image differs from the image returned when the try block raises:
the former holds the channel-swapped triple (180, 130, 70). -/
theorem load_fallback_paths_differ :
    (load_image DecodeResult.noImage).pixel 150 150
      ≠ (load_image (DecodeResult.raised "decode error")).pixel 150 150 := by
  decide

end SatelliteAI
